import Mathlib

/-!
Shallow embedding of the debook backend (FastAPI + web3 service) and proofs about it.

Source files embedded here:
- backend/app/services/blockchain.py  (BlockchainService: chain reads, pricing, list_property)
- backend/app/api/v1/router.py        (price-calculation endpoint, create_property handler)
- backend/app/db/session.py           (per-request session lifecycle)

Conventions: an upstream call that may raise is modelled as an `Except String` value
supplied by an environment structure; machine integers are `Nat`/`Int`; the exact
decimal values produced by `web3.fromWei(_, 'ether')` are modelled as `ℚ`.
-/

namespace Debook

/-- Opaque JSON document handled by the service; `Json.empty` is the empty dict
returned by the error paths, `Json.doc` any other document. -/
inductive Json where
  | empty : Json
  | doc : String → Json
deriving DecidableEq

/-- Result of `_get_property_metadata`: the hard-coded default metadata dict (returned
when the URI is empty or does not start with the ipfs scheme), the empty dict (on a
fetch failure or a non-200 status), or the fetched JSON document. -/
inductive MetaResult where
  | defaultMeta : MetaResult
  | empty : MetaResult
  | fetched : Json → MetaResult
deriving DecidableEq

/-- Raw return tuple of the `properties(id)` contract call on RentalNFT, in ABI order. -/
structure PropTuple where
  owner : String
  location : String
  priceWei : Nat
  minRentalDuration : Nat
  maxRentalDuration : Nat
  available : Bool
  pricingModel : Nat
  depositRequirement : Nat
  metadataURI : String
deriving DecidableEq

/-- Raw return tuple of the `rentalRecords(id)` contract call, in ABI order. -/
structure RentalTuple where
  propertyId : Nat
  landlord : String
  tenant : String
  startDate : Nat
  endDate : Nat
  basePriceWei : Nat
  finalPriceWei : Nat
  depositWei : Nat
  discountAWei : Nat
  discountBBaseWei : Nat
  discountBPlusWei : Nat
  state : Nat
  allowTransfer : Bool
  cancelDeadline : Nat
  metadataURI : String
deriving DecidableEq

/-- Environment for the read side of BlockchainService: each field is the outcome of one
upstream call (a contract call over the web3 provider, or the HTTP fetch against the
IPFS gateway). `Except.error` models the call raising an exception; for `httpGet`,
it also covers a body that fails to parse as JSON. -/
structure ReadEnv where
  getPropertyCountCall : Except String Nat
  propertiesCall : Nat → Except String PropTuple
  rentalRecordsCall : Nat → Except String RentalTuple
  getTenantRentalsCall : String → Except String (List Nat)
  getLandlordPropertiesCall : String → Except String (List Nat)
  httpGet : String → Except String (Nat × Json)
  ipfsGateway : String

/-- Conversion `web3.fromWei(w, 'ether')`: the exact decimal w / 10^18. -/
def fromWei (w : Nat) : ℚ := (w : ℚ) / 10 ^ 18

/-- Embedding of `_get_property_metadata`: default dict when the URI is falsy or has no
ipfs scheme; otherwise GET `gateway ++ hash`, returning the parsed body on status 200
and the empty dict on any failure or other status. -/
def get_property_metadata (env : ReadEnv) (metadata_uri : String) : MetaResult :=
  if (metadata_uri == "") || !(metadata_uri.startsWith ("ipfs://")) then
    MetaResult.defaultMeta
  else
    match env.httpGet (env.ipfsGateway ++ metadata_uri.replace ("ipfs://") ("")) with
    | Except.ok (status, j) => if status == 200 then MetaResult.fetched j else MetaResult.empty
    | Except.error _ => MetaResult.empty

/-- One property record as assembled by `get_property` from a raw contract tuple. -/
structure PropertyRecord where
  id : Nat
  owner : String
  location : String
  pricePerMonth : ℚ
  minRentalDuration : Nat
  maxRentalDuration : Nat
  available : Bool
  pricingModel : Nat
  depositRequirement : Nat
  metadataURI : String
  metadata : MetaResult
deriving DecidableEq

/-- Hydration of a raw tuple into the response record (success branch of `get_property`). -/
def hydrateProperty (env : ReadEnv) (property_id : Nat) (t : PropTuple) : PropertyRecord :=
  { id := property_id
    owner := t.owner
    location := t.location
    pricePerMonth := fromWei t.priceWei
    minRentalDuration := t.minRentalDuration
    maxRentalDuration := t.maxRentalDuration
    available := t.available
    pricingModel := t.pricingModel
    depositRequirement := t.depositRequirement
    metadataURI := t.metadataURI
    metadata := get_property_metadata env t.metadataURI }

/-- Embedding of `get_property`: `none` is the empty dict `{}` returned when the
contract call raises. -/
def get_property (env : ReadEnv) (property_id : Nat) : Option PropertyRecord :=
  match env.propertiesCall property_id with
  | Except.ok t => some (hydrateProperty env property_id t)
  | Except.error _ => none

/-- Embedding of `get_property_count`: 0 when the contract call raises. -/
def get_property_count (env : ReadEnv) : Nat :=
  match env.getPropertyCountCall with
  | Except.ok n => n
  | Except.error _ => 0

/-- Embedding of `get_available_properties`: enumerate ids 1..count in ascending order,
keep the successfully fetched records whose `available` flag is set, then take the
slice `[skip, skip+limit)` of the filtered sequence. -/
def get_available_properties (env : ReadEnv) (skip limit : Nat) : List PropertyRecord :=
  ((((List.range' 1 (get_property_count env)).filterMap (get_property env)).filter
      (fun p => p.available)).drop skip).take limit

/-- One rental record as assembled by `get_rental`. -/
structure RentalRecord where
  id : Nat
  propertyId : Nat
  landlord : String
  tenant : String
  startDate : Nat
  endDate : Nat
  basePrice : ℚ
  finalPrice : ℚ
  deposit : ℚ
  discountA : ℚ
  discountBBase : ℚ
  discountBPlus : ℚ
  state : Nat
  allowTransfer : Bool
  cancelDeadline : Nat
  metadataURI : String
deriving DecidableEq

/-- Embedding of `get_rental`: `none` is the empty dict returned when the call raises. -/
def get_rental (env : ReadEnv) (rental_id : Nat) : Option RentalRecord :=
  match env.rentalRecordsCall rental_id with
  | Except.error _ => none
  | Except.ok t =>
    some
      { id := rental_id
        propertyId := t.propertyId
        landlord := t.landlord
        tenant := t.tenant
        startDate := t.startDate
        endDate := t.endDate
        basePrice := fromWei t.basePriceWei
        finalPrice := fromWei t.finalPriceWei
        deposit := fromWei t.depositWei
        discountA := fromWei t.discountAWei
        discountBBase := fromWei t.discountBBaseWei
        discountBPlus := fromWei t.discountBPlusWei
        state := t.state
        allowTransfer := t.allowTransfer
        cancelDeadline := t.cancelDeadline
        metadataURI := t.metadataURI }

/-- Embedding of `get_user_rentals`: empty list when the index call raises; each id is
hydrated and kept only when the hydration yields a non-empty record. -/
def get_user_rentals (env : ReadEnv) (user_address : String) : List RentalRecord :=
  match env.getTenantRentalsCall user_address with
  | Except.error _ => []
  | Except.ok ids => ids.filterMap (get_rental env)

/-- Embedding of `get_landlord_properties`: empty list when the index call raises. -/
def get_landlord_properties (env : ReadEnv) (landlord_address : String) : List PropertyRecord :=
  match env.getLandlordPropertiesCall landlord_address with
  | Except.error _ => []
  | Except.ok ids => ids.filterMap (get_property env)

/-- A filterMap collapses to a map on a list where the function always succeeds. -/
theorem filterMap_eq_map_of_forall {α β : Type} (f : α → Option β) (g : α → β)
    (l : List α) (h : ∀ x ∈ l, f x = some (g x)) : l.filterMap f = l.map g := by
  induction l with
  | nil => rfl
  | cons a t ih =>
    rw [List.map_cons, List.filterMap_cons_some (h a (List.mem_cons_self a t)),
      ih (fun x hx => h x (List.mem_cons_of_mem a hx))]

/-- C1: on a chain whose `properties(i)` calls all succeed for ids 1..count,
`get_available_properties(skip, limit)` first filters the ascending id sequence by the
`available` flag and then slices `[skip, skip+limit)` of the filtered sequence. -/
theorem listAvailable_filters_then_paginates (env : ReadEnv) (count : Nat)
    (props : Nat → PropTuple)
    (hcount : env.getPropertyCountCall = Except.ok count)
    (hfetch : ∀ i, 1 ≤ i → i ≤ count → env.propertiesCall i = Except.ok (props i))
    (skip limit : Nat) :
    get_available_properties env skip limit =
      ((((List.range' 1 count).map (fun i => hydrateProperty env i (props i))).filter
          (fun p => p.available)).drop skip).take limit := by
  have hc : get_property_count env = count := by
    unfold get_property_count; rw [hcount]
  have h1 : (List.range' 1 count).filterMap (get_property env) =
      (List.range' 1 count).map (fun i => hydrateProperty env i (props i)) := by
    apply filterMap_eq_map_of_forall
    intro x hx
    obtain ⟨i, hi, rfl⟩ := List.mem_range'.mp hx
    have h1x : 1 ≤ 1 + 1 * i := Nat.le_add_right 1 (1 * i)
    have h2x : 1 + 1 * i ≤ count := by omega
    unfold get_property
    rw [hfetch (1 + 1 * i) h1x h2x]
  unfold get_available_properties
  rw [hc, h1]

/-- Chain tuple for the C1 example: availability true/false/true/true at ids 1..4. -/
def c1Tuple (i : Nat) : PropTuple :=
  { owner := "owner"
    location := "loc"
    priceWei := 0
    minRentalDuration := 1
    maxRentalDuration := 12
    available := i != 2
    pricingModel := 0
    depositRequirement := 0
    metadataURI := "" }

/-- Concrete read environment with four properties, availability [true,false,true,true]. -/
def c1Env : ReadEnv :=
  { getPropertyCountCall := Except.ok 4
    propertiesCall := fun i => Except.ok (c1Tuple i)
    rentalRecordsCall := fun _ => Except.error ("unused")
    getTenantRentalsCall := fun _ => Except.error ("unused")
    getLandlordPropertiesCall := fun _ => Except.error ("unused")
    httpGet := fun _ => Except.error ("unused")
    ipfsGateway := "" }

/-- Witness for C1: on the [true,false,true,true] chain, listAvailable(0, 2) returns the
records with ids [1, 3]. -/
theorem listAvailable_filters_then_paginates_witness :
    c1Env.getPropertyCountCall = Except.ok 4 ∧
    (get_available_properties c1Env 0 2).map PropertyRecord.id = [1, 3] := by
  constructor
  · rfl
  · rw [listAvailable_filters_then_paginates c1Env 4 c1Tuple rfl (fun i _ _ => rfl) 0 2]
    rfl

/-- Rental tuple used by the C6 counterexample environment. -/
def c6RentalTuple : RentalTuple :=
  { propertyId := 7
    landlord := "0xlandlord"
    tenant := "0xtenant"
    startDate := 0
    endDate := 1
    basePriceWei := 0
    finalPriceWei := 0
    depositWei := 0
    discountAWei := 0
    discountBBaseWei := 0
    discountBPlusWei := 0
    state := 0
    allowTransfer := false
    cancelDeadline := 0
    metadataURI := "" }

/-- Read environment where the tenant index returns ids [1, 2] but the contract call for
rental 2 raises: exactly one per-id hydration fails. -/
def c6Env : ReadEnv :=
  { getPropertyCountCall := Except.error ("unused")
    propertiesCall := fun _ => Except.error ("unused")
    rentalRecordsCall := fun i =>
      if i == 1 then Except.ok c6RentalTuple else Except.error ("contract call failed")
    getTenantRentalsCall := fun _ => Except.ok [1, 2]
    getLandlordPropertiesCall := fun _ => Except.error ("unused")
    httpGet := fun _ => Except.error ("unused")
    ipfsGateway := "" }

/-- C6 counterexample: a failure of an underlying contract call (the `rentalRecords(2)`
call issued while `get_user_rentals` hydrates the tenant's id list) does not make the
operation return an empty/absent result - the failed entry is silently dropped and a
non-empty partial list is returned. -/
theorem gateway_read_failure_not_always_absent :
    c6Env.rentalRecordsCall 2 = Except.error ("contract call failed") ∧
    get_rental c6Env 2 = none ∧
    get_user_rentals c6Env ("0xtenant") ≠ [] := by
  refine ⟨rfl, rfl, ?_⟩
  have h : get_user_rentals c6Env ("0xtenant") =
      [⟨1, 7, "0xlandlord", "0xtenant", 0, 1, fromWei 0, fromWei 0, fromWei 0, fromWei 0,
        fromWei 0, fromWei 0, 0, false, 0, ""⟩] := rfl
  rw [h]
  exact List.cons_ne_nil _ _

/-- C6 amended: each read operation converts a failure of its own top-level upstream call
into an empty/absent result (0, `none`, or `[]`) instead of propagating it; a per-id
hydration failure inside a list read is dropped (the list call returns the remaining
hydrated entries); and a successful `properties(id)` call always yields a populated
record, whatever the metadata fetch produced. Exceptions never escape: every operation
is a total function into plain result types. -/
theorem gateway_reads_absorb_failures (env : ReadEnv) (e : String)
    (pid rid : Nat) (addr : String) :
    (env.getPropertyCountCall = Except.error e → get_property_count env = 0) ∧
    (env.propertiesCall pid = Except.error e → get_property env pid = none) ∧
    (env.rentalRecordsCall rid = Except.error e → get_rental env rid = none) ∧
    (env.getTenantRentalsCall addr = Except.error e → get_user_rentals env addr = []) ∧
    (env.getLandlordPropertiesCall addr = Except.error e →
      get_landlord_properties env addr = []) ∧
    (∀ ids, env.getTenantRentalsCall addr = Except.ok ids →
      get_user_rentals env addr = ids.filterMap (get_rental env)) ∧
    (∀ t, env.propertiesCall pid = Except.ok t →
      get_property env pid = some (hydrateProperty env pid t)) := by
  refine ⟨?_, ?_, ?_, ?_, ?_, ?_, ?_⟩
  · intro h; unfold get_property_count; rw [h]
  · intro h; unfold get_property; rw [h]
  · intro h; unfold get_rental; rw [h]
  · intro h; unfold get_user_rentals; rw [h]
  · intro h; unfold get_landlord_properties; rw [h]
  · intro ids h; unfold get_user_rentals; rw [h]
  · intro t h; unfold get_property; rw [h]

/-- Read environment where every upstream call raises. -/
def c6AllFailEnv : ReadEnv :=
  { getPropertyCountCall := Except.error ("boom")
    propertiesCall := fun _ => Except.error ("boom")
    rentalRecordsCall := fun _ => Except.error ("boom")
    getTenantRentalsCall := fun _ => Except.error ("boom")
    getLandlordPropertiesCall := fun _ => Except.error ("boom")
    httpGet := fun _ => Except.error ("boom")
    ipfsGateway := "" }

/-- Witness for the amended C6: on an environment where every upstream call raises, each
read operation returns its empty/absent result. -/
theorem gateway_reads_absorb_failures_witness :
    get_property_count c6AllFailEnv = 0 ∧
    get_property c6AllFailEnv 1 = none ∧
    get_rental c6AllFailEnv 1 = none ∧
    get_user_rentals c6AllFailEnv ("0xa") = [] ∧
    get_landlord_properties c6AllFailEnv ("0xa") = [] :=
  have h := gateway_reads_absorb_failures c6AllFailEnv ("boom") 1 1 ("0xa")
  ⟨h.1 rfl, h.2.1 rfl, h.2.2.1 rfl, h.2.2.2.1 rfl, h.2.2.2.2.1 rfl⟩

/-- Fuel-based floor of the base-2 logarithm (fuel bounds the number of halvings). -/
def log2aux : Nat → Nat → Nat
  | 0, _ => 0
  | fuel+1, n => if 2 ≤ n then log2aux fuel (n / 2) + 1 else 0

/-- Floor of the base-2 logarithm; n halvings always suffice as fuel. -/
def log2floor (n : Nat) : Nat := log2aux n n

theorem log2aux_eq_log (fuel : Nat) : ∀ n, n ≤ fuel → log2aux fuel n = Nat.log 2 n := by
  induction fuel with
  | zero =>
    intro n hn
    interval_cases n
    simp [log2aux]
  | succ fuel ih =>
    intro n hn
    by_cases h2 : 2 ≤ n
    · have hdiv : n / 2 ≤ fuel := by omega
      rw [show log2aux (fuel + 1) n = log2aux fuel (n / 2) + 1 by simp [log2aux, h2],
        ih (n / 2) hdiv, Nat.log_div_base 2 n]
      have hpos : Nat.log 2 n ≠ 0 := by
        have := Nat.log_pos (by norm_num : 1 < 2) h2
        omega
      omega
    · rw [show log2aux (fuel + 1) n = 0 by simp [log2aux, h2]]
      symm
      rw [Nat.log_eq_zero_iff]
      left
      omega

/-- The fuel-based logarithm agrees with Nat.log 2 everywhere. -/
theorem log2floor_eq_log (n : Nat) : log2floor n = Nat.log 2 n :=
  log2aux_eq_log n n (Nat.le_refl n)

/-- Round-to-nearest with ties-to-even of the exact rational a / b, for b > 0. -/
def rne (a b : Nat) : Nat :=
  let q := a / b
  let r := a % b
  if 2 * r < b then q
  else if b < 2 * r then q + 1
  else if q % 2 = 0 then q else q + 1

/-- Exact model of the CPython expression `int(a / 100)` for a non-negative int `a`:
true division of ints is correctly rounded to the nearest IEEE-754 binary64 value
(ties to even) and `int` truncates toward zero. The quotient's binade exponent is
`log2floor (a * 128 / 100) - 7` (quotients are at least 1/100, hence normal, and the
model covers every value below the binary64 overflow threshold); the grid of
representable values in that binade has spacing 2^(exponent - 52). -/
def intTrueDiv100 (a : Nat) : Nat :=
  if a = 0 then 0
  else
    let e : Int := (log2floor (a * 128 / 100) : Int) - 7
    let g : Int := e - 52
    if g ≤ 0 then rne (a * 2 ^ (-g).toNat) 100 / 2 ^ (-g).toNat
    else rne a (100 * 2 ^ g.toNat) * 2 ^ g.toNat

/-- Embedding of `platform_fee = int(final_price * 3 / 100)` from calculate_rental_price
(`final_price` in wei, `/` is Python float true division). -/
def platform_fee (final_price : Nat) : Nat := intTrueDiv100 (final_price * 3)

/-- Embedding of `total_payment = final_price + platform_fee` (exact int addition). -/
def total_payment (final_price : Nat) : Nat := final_price + platform_fee final_price

/-- Raw result tuple of the `calculateRentalPrice` contract call. -/
structure QuoteTuple where
  basePrice : Nat
  discountA : Nat
  finalPrice : Nat
deriving DecidableEq

/-- Response record of calculate_rental_price (all monetary fields converted by fromWei). -/
structure PriceCalc where
  basePrice : ℚ
  discountA : ℚ
  finalPrice : ℚ
  platformFee : ℚ
  totalPayment : ℚ
  estimatedDiscountB : ℚ
deriving DecidableEq

/-- Embedding of the success path of `calculate_rental_price`: the platform fee is the
float-division model above, the total is exact, and the DeFi estimate multiplies the
ether-denominated base price by 0.04 * 0.7. The estimate's float arithmetic is modelled
in exact rational arithmetic (binary64 rounding of this advisory field is not tracked;
the fee field, where rounding changes the integer wei amount, is tracked exactly). -/
def calculate_rental_price (q : QuoteTuple) : PriceCalc :=
  let pf := platform_fee q.finalPrice
  let tp := q.finalPrice + pf
  { basePrice := fromWei q.basePrice
    discountA := fromWei q.discountA
    finalPrice := fromWei q.finalPrice
    platformFee := fromWei pf
    totalPayment := fromWei tp
    estimatedDiscountB := fromWei q.basePrice * 0.04 * 0.7 }

/-- C2 (code bug evaluation): at final_price = 600479950316066500 wei the service's
float-division platform fee is 18014398509481996 wei, one more than
floor(finalPrice * 3 / 100) = 18014398509481995: the exact quotient lies in the binade
[2^54, 2^55) where binary64 spacing is 4, and rounds up to the nearest representable
value. The claimed exact-floor law therefore fails; the exact totalPayment relation
still holds on top of the computed fee. -/
theorem platform_fee_float_rounding_bug :
    platform_fee 600479950316066500 = 18014398509481996 ∧
    600479950316066500 * 3 / 100 = 18014398509481995 ∧
    total_payment 600479950316066500 = 600479950316066500 + 18014398509481996 ∧
    (calculate_rental_price ⟨0, 0, 600479950316066500⟩).platformFee =
      fromWei 18014398509481996 := by
  have hfee : platform_fee 600479950316066500 = 18014398509481996 := by decide
  refine ⟨hfee, by simp, ?_, ?_⟩
  · unfold total_payment
    rw [hfee]
  · show fromWei (platform_fee 600479950316066500) = fromWei 18014398509481996
    rw [hfee]

/-- C8: the estimated DeFi discount is basePrice * 0.04 * 0.7 computed on the
ether-denominated (decimal) value, i.e. basePrice * 0.028 / 10^18 of the raw wei
amount - unlike the fee fields it is not derived in the smallest currency unit. -/
theorem estimatedDiscountB_decimal_space (q : QuoteTuple) :
    (calculate_rental_price q).estimatedDiscountB = fromWei q.basePrice * 0.04 * 0.7 ∧
    (calculate_rental_price q).estimatedDiscountB = (q.basePrice : ℚ) * 0.028 / 10 ^ 18 := by
  constructor
  · rfl
  · show fromWei q.basePrice * 0.04 * 0.7 = _
    unfold fromWei
    rw [show (0.04 : ℚ) = 4 / 100 by norm_num, show (0.7 : ℚ) = 7 / 10 by norm_num,
      show (0.028 : ℚ) = 28 / 1000 by norm_num]
    ring

/-- Embedding of the lead-days computation of POST /rentals/calculate:
`advance_booking_days = (start_date - now) // 86400` with Python floor division. -/
def advance_booking_days (start_date now : Int) : Int :=
  Int.fdiv (start_date - now) 86400

/-- Argument tuple the endpoint forwards to BlockchainService.calculate_rental_price:
property id, start, end, and the (possibly negative) lead days, unvalidated. -/
def calculate_price_args (property_id start_date end_date now : Int) :
    Int × Int × Int × Int :=
  (property_id, start_date, end_date, advance_booking_days start_date now)

/-- C5: leadDays = floor((start - now) / 86400) is non-negative whenever start > now and
monotonically increasing in start for fixed now; when start is in the past the value is
negative and is still passed through unchanged as the fourth contract-call argument. -/
theorem leadDays_nonneg_monotone_passthrough (now : Int) :
    (∀ start, now < start → 0 ≤ advance_booking_days start now) ∧
    (∀ s t, s ≤ t → advance_booking_days s now ≤ advance_booking_days t now) ∧
    (∀ start, start < now → advance_booking_days start now < 0) ∧
    (∀ pid start e, calculate_price_args pid start e now =
      (pid, start, e, advance_booking_days start now)) := by
  have hb : (0 : Int) ≤ 86400 := by norm_num
  refine ⟨?_, ?_, ?_, fun pid start e => rfl⟩
  · intro start h
    unfold advance_booking_days
    rw [Int.fdiv_eq_ediv _ hb]
    exact Int.ediv_nonneg (by omega) hb
  · intro s t h
    unfold advance_booking_days
    rw [Int.fdiv_eq_ediv _ hb, Int.fdiv_eq_ediv _ hb]
    exact Int.ediv_le_ediv (by norm_num) (by omega)
  · intro start h
    unfold advance_booking_days
    rw [Int.fdiv_eq_ediv _ hb]
    omega

/-- Witness for C5 at concrete timestamps: lead days are non-negative for a future start,
monotone between two starts, and negative for a past start. -/
theorem leadDays_nonneg_monotone_passthrough_witness :
    0 ≤ advance_booking_days 200000 100 ∧
    advance_booking_days 100000 100 ≤ advance_booking_days 200000 100 ∧
    advance_booking_days 50 100 < 0 :=
  ⟨(leadDays_nonneg_monotone_passthrough 100).1 200000 (by norm_num),
   (leadDays_nonneg_monotone_passthrough 100).2.1 100000 200000 (by norm_num),
   (leadDays_nonneg_monotone_passthrough 100).2.2.1 50 (by norm_num)⟩

/-- Input dict of list_property; `none` models an absent key. The price is forwarded to
web3.toWei, modelled here for integer ether amounts (no claim inspects its value). -/
structure PropertyInput where
  location : Option String
  pricePerMonth : Option Nat
  minRentalDuration : Option Nat
  maxRentalDuration : Option Nat
  depositRequirement : Option Nat
  metadata : Option Json
deriving DecidableEq

/-- Arguments of the on-chain listProperty call as built by the service. -/
structure ListPropertyArgs where
  location : String
  priceInWei : Nat
  minRentalDuration : Nat
  maxRentalDuration : Nat
  depositRequirement : Nat
  metadataURI : String
deriving DecidableEq

/-- A transaction as built by _build_and_send_tx (gas limit hard-coded to 2000000). -/
structure Tx where
  args : ListPropertyArgs
  fromAddress : String
  nonce : Nat
  gas : Nat
  gasPrice : Nat
deriving DecidableEq

/-- Opaque receipt log entry; decoding is environment-supplied. -/
structure Log where
  raw : String
deriving DecidableEq

/-- Mined transaction receipt. -/
structure TxReceipt where
  blockNumber : Nat
  logs : List Log
deriving DecidableEq

/-- Externally observable side effects of the write path, in order of occurrence. -/
inductive Event where
  | publish : Json → String → Event
  | submitTx : Tx → Event
deriving DecidableEq

/-- The configured operator (admin) account. -/
structure Admin where
  address : String
  key : String
deriving DecidableEq

/-- Environment for the write path: the configured admin account, the IPFS add outcome
(`none` models every failure path: no client or credentials, non-200 response,
exception), the chain nonce and gas price reads, the hash returned by
sendRawTransaction, the mined receipt, and the PropertyListed log decoder
(`none` when processLog raises or the propertyId argument is missing). -/
structure WriteEnv where
  adminAccount : Option Admin
  ipfsAdd : Json → Option String
  nonce : Nat
  gasPrice : Nat
  txHash : String
  receipt : TxReceipt
  decodeListed : Log → Option Nat

/-- ASCII lowering of one character (A-Z mapped to a-z). -/
def lowerChar (c : Char) : Char :=
  if 65 ≤ c.toNat ∧ c.toNat ≤ 90 then Char.ofNat (c.toNat + 32) else c

/-- Model of Python str.lower() as used on hex account addresses (ASCII input). -/
def pyLower (s : String) : String := ⟨s.data.map lowerChar⟩

/-- Embedding of _upload_to_ipfs: "ipfs://" ++ hash on a successful add, and the empty
string on every failure path (the source returns "" when no client or credentials are
available, on a non-200 Infura response, and on any exception). -/
def upload_to_ipfs (env : WriteEnv) (data : Json) : String :=
  match env.ipfsAdd data with
  | some h => "ipfs://" ++ h
  | none => ""

/-- Python truthiness of the optional private_key argument (None and "" are falsy). -/
def truthyKey : Option String → Bool
  | none => false
  | some k => k != ""

/-- Embedding of _build_and_send_tx: reads the nonce and gas price, builds the
transaction, signs with the caller key if truthy, else with the admin key provided the
sender equals the admin address case-insensitively, else raises ValueError before any
submission; on success returns the submission hash and the submitted transaction. -/
def build_and_send_tx (env : WriteEnv) (args : ListPropertyArgs) (from_address : String)
    (private_key : Option String) : Except String (String × Tx) :=
  let tx : Tx :=
    { args := args
      fromAddress := from_address
      nonce := env.nonce
      gas := 2000000
      gasPrice := env.gasPrice }
  if truthyKey private_key then
    Except.ok (env.txHash, tx)
  else
    match env.adminAccount with
    | some admin =>
      if pyLower from_address == pyLower admin.address then
        Except.ok (env.txHash, tx)
      else
        Except.error ("No private key provided and admin account doesn't match from_address")
    | none =>
      Except.error ("No private key provided and admin account doesn't match from_address")

/-- Result dict of list_property: `ok propertyId txHash blockNumber` for the success
dict, `err msg` for the failure dict. -/
inductive ListResult where
  | ok : Nat → String → Nat → ListResult
  | err : String → ListResult
deriving DecidableEq

/-- The "success" field of the result dict. -/
def ListResult.success : ListResult → Bool
  | ListResult.ok _ _ _ => true
  | ListResult.err _ => false

/-- The "propertyId" field of the result dict (absent on failure). -/
def ListResult.propertyId : ListResult → Option Nat
  | ListResult.ok pid _ _ => some pid
  | ListResult.err _ => none

/-- The "error" field of the result dict (absent on success). -/
def ListResult.errorMsg : ListResult → Option String
  | ListResult.ok _ _ _ => none
  | ListResult.err m => some m

/-- PropertyId recovered from the first receipt log that decodes as a PropertyListed
event; defaults to 0 when no log decodes. -/
def scanPropertyId (env : WriteEnv) (logs : List Log) : Nat :=
  match logs.filterMap env.decodeListed with
  | [] => 0
  | pid :: _ => pid

/-- Embedding of list_property: validate the five required fields in order (failing fast
with a field-name-bearing error), publish the metadata payload when present and embed
the returned locator, build and send the transaction, wait for the receipt, scan its
logs for the PropertyListed event, and return the result dict. The second component is
the ordered trace of externally observable effects; any exception raised on the way
(in particular the signing-authority ValueError) is caught and converted into the
failure dict carrying its message. -/
def list_property (env : WriteEnv) (owner_address : String) (pd : PropertyInput)
    (private_key : Option String) : ListResult × List Event :=
  match pd.location with
  | none => (ListResult.err ("Missing field: location"), [])
  | some location =>
    match pd.pricePerMonth with
    | none => (ListResult.err ("Missing field: pricePerMonth"), [])
    | some price =>
      match pd.minRentalDuration with
      | none => (ListResult.err ("Missing field: minRentalDuration"), [])
      | some minDur =>
        match pd.maxRentalDuration with
        | none => (ListResult.err ("Missing field: maxRentalDuration"), [])
        | some maxDur =>
          match pd.depositRequirement with
          | none => (ListResult.err ("Missing field: depositRequirement"), [])
          | some deposit =>
            let metadata_uri : String :=
              match pd.metadata with
              | some m => upload_to_ipfs env m
              | none => ""
            let pubEvents : List Event :=
              match pd.metadata with
              | some m => [Event.publish m (upload_to_ipfs env m)]
              | none => []
            let args : ListPropertyArgs :=
              { location := location
                priceInWei := price * 10 ^ 18
                minRentalDuration := minDur
                maxRentalDuration := maxDur
                depositRequirement := deposit
                metadataURI := metadata_uri }
            match build_and_send_tx env args owner_address private_key with
            | Except.error msg => (ListResult.err msg, pubEvents)
            | Except.ok (tx_hash, tx) =>
              (ListResult.ok (scanPropertyId env env.receipt.logs) tx_hash
                  env.receipt.blockNumber,
                pubEvents ++ [Event.submitTx tx])

/-- C3: when the transaction is mined but no receipt log decodes as a PropertyListed
event, list_property still returns success = true and reports propertyId = 0, a value
indistinguishable from a legitimately zero identifier. -/
theorem listProperty_missing_event_defaults_zero (env : WriteEnv) (owner : String)
    (pd : PropertyInput) (key : Option String)
    (l : String) (p mn mx dp : Nat)
    (hl : pd.location = some l) (hp : pd.pricePerMonth = some p)
    (hmn : pd.minRentalDuration = some mn) (hmx : pd.maxRentalDuration = some mx)
    (hdp : pd.depositRequirement = some dp)
    (hkey : truthyKey key = true)
    (hnolog : ∀ log ∈ env.receipt.logs, env.decodeListed log = none) :
    ((list_property env owner pd key).1).success = true ∧
    ((list_property env owner pd key).1).propertyId = some 0 := by
  have hscan : scanPropertyId env env.receipt.logs = 0 := by
    unfold scanPropertyId
    rw [List.filterMap_eq_nil_iff.mpr hnolog]
  unfold list_property build_and_send_tx
  rw [hl, hp, hmn, hmx, hdp, hkey]
  simp [hscan, ListResult.success, ListResult.propertyId]

/-- Concrete write environment: operator account configured, IPFS add succeeding, one
receipt log that does not decode as PropertyListed. -/
def wEnv : WriteEnv :=
  { adminAccount := some { address := "0xAdmin", key := "adminkey" }
    ipfsAdd := fun _ => some "Qmhash"
    nonce := 5
    gasPrice := 1000000000
    txHash := "0xfeed"
    receipt := { blockNumber := 12, logs := [{ raw := "log0" }] }
    decodeListed := fun _ => none }

/-- Complete listProperty input dict carrying a metadata payload. -/
def wInput : PropertyInput :=
  { location := some "Taipei"
    pricePerMonth := some 1
    minRentalDuration := some 1
    maxRentalDuration := some 12
    depositRequirement := some 2
    metadata := some (Json.doc ("metadata")) }

/-- Witness for C3: a concrete mined call whose only log fails to decode returns
success with propertyId 0. -/
theorem listProperty_missing_event_defaults_zero_witness :
    truthyKey (some "k") = true ∧
    ((list_property wEnv ("0xAdmin") wInput (some "k")).1).success = true ∧
    ((list_property wEnv ("0xAdmin") wInput (some "k")).1).propertyId = some 0 := by
  refine ⟨by decide, ?_⟩
  exact listProperty_missing_event_defaults_zero wEnv ("0xAdmin") wInput (some "k")
    "Taipei" 1 1 12 2 rfl rfl rfl rfl rfl (by decide) (fun log _ => rfl)

/-- C4: with no caller-supplied key and a sender that differs case-insensitively from the
configured operator address, list_property fails with the signing-authority error
message and no transaction is submitted. -/
theorem listProperty_signing_authority_error (env : WriteEnv) (owner : String)
    (pd : PropertyInput) (l : String) (p mn mx dp : Nat) (admin : Admin)
    (hl : pd.location = some l) (hp : pd.pricePerMonth = some p)
    (hmn : pd.minRentalDuration = some mn) (hmx : pd.maxRentalDuration = some mx)
    (hdp : pd.depositRequirement = some dp)
    (hadmin : env.adminAccount = some admin)
    (hmm : (pyLower owner == pyLower admin.address) = false) :
    ((list_property env owner pd none).1).success = false ∧
    ((list_property env owner pd none).1).errorMsg =
      some ("No private key provided and admin account doesn't match from_address") ∧
    (∀ tx, Event.submitTx tx ∉ (list_property env owner pd none).2) := by
  unfold list_property build_and_send_tx
  rw [hl, hp, hmn, hmx, hdp, hadmin]
  cases hmeta : pd.metadata with
  | none => simp [truthyKey, hmm, ListResult.success, ListResult.errorMsg]
  | some m => simp [truthyKey, hmm, ListResult.success, ListResult.errorMsg]

/-- Witness for C4: a concrete call with no key and a mismatching sender fails with the
signing-authority message and submits nothing. -/
theorem listProperty_signing_authority_error_witness :
    (pyLower ("0xOther") == pyLower ("0xAdmin")) = false ∧
    ((list_property wEnv ("0xOther") wInput none).1).success = false ∧
    ((list_property wEnv ("0xOther") wInput none).1).errorMsg =
      some ("No private key provided and admin account doesn't match from_address") ∧
    (∀ tx, Event.submitTx tx ∉ (list_property wEnv ("0xOther") wInput none).2) := by
  have hmm : (pyLower ("0xOther") == pyLower ("0xAdmin")) = false := by decide
  have h := listProperty_signing_authority_error wEnv ("0xOther") wInput
    "Taipei" 1 1 12 2 { address := "0xAdmin", key := "adminkey" }
    rfl rfl rfl rfl rfl rfl hmm
  exact ⟨hmm, h.1, h.2.1, h.2.2⟩

/-- C7: with a metadata payload present and a signable call, the payload is published
exactly once, before the transaction is submitted, and the locator returned by the
store is the metadataURI argument of the submitted call. -/
theorem listProperty_publishes_once_before_submit (env : WriteEnv) (owner : String)
    (pd : PropertyInput) (key : Option String) (m : Json)
    (l : String) (p mn mx dp : Nat)
    (hl : pd.location = some l) (hp : pd.pricePerMonth = some p)
    (hmn : pd.minRentalDuration = some mn) (hmx : pd.maxRentalDuration = some mx)
    (hdp : pd.depositRequirement = some dp)
    (hmeta : pd.metadata = some m)
    (hkey : truthyKey key = true) :
    ∃ tx : Tx,
      (list_property env owner pd key).2 =
        [Event.publish m (upload_to_ipfs env m), Event.submitTx tx] ∧
      tx.args.metadataURI = upload_to_ipfs env m := by
  refine ⟨Tx.mk (ListPropertyArgs.mk l (p * 10 ^ 18) mn mx dp (upload_to_ipfs env m))
    owner env.nonce 2000000 env.gasPrice, ?_, rfl⟩
  unfold list_property build_and_send_tx
  rw [hl, hp, hmn, hmx, hdp, hmeta, hkey]
  simp

/-- Witness for C7: on a concrete call the trace is exactly one publish followed by one
submission embedding the returned locator. -/
theorem listProperty_publishes_once_before_submit_witness :
    wInput.metadata = some (Json.doc ("metadata")) ∧
    (∃ tx : Tx,
      (list_property wEnv ("0xAdmin") wInput (some "k")).2 =
        [Event.publish (Json.doc ("metadata")) (upload_to_ipfs wEnv (Json.doc ("metadata"))),
          Event.submitTx tx] ∧
      tx.args.metadataURI = upload_to_ipfs wEnv (Json.doc ("metadata"))) :=
  ⟨rfl, listProperty_publishes_once_before_submit wEnv ("0xAdmin") wInput (some "k")
    (Json.doc ("metadata")) "Taipei" 1 1 12 2 rfl rfl rfl rfl rfl rfl (by decide)⟩

/-- C9: when every IPFS upload path fails, _upload_to_ipfs returns the empty string, the
failure is not surfaced, and the on-chain call is still submitted with an empty
metadata URI. -/
theorem listProperty_upload_failure_still_submits (env : WriteEnv) (owner : String)
    (pd : PropertyInput) (key : Option String) (m : Json)
    (l : String) (p mn mx dp : Nat)
    (hl : pd.location = some l) (hp : pd.pricePerMonth = some p)
    (hmn : pd.minRentalDuration = some mn) (hmx : pd.maxRentalDuration = some mx)
    (hdp : pd.depositRequirement = some dp)
    (hmeta : pd.metadata = some m)
    (hfail : env.ipfsAdd m = none)
    (hkey : truthyKey key = true) :
    upload_to_ipfs env m = "" ∧
    ((list_property env owner pd key).1).success = true ∧
    (∃ tx : Tx, Event.submitTx tx ∈ (list_property env owner pd key).2 ∧
      tx.args.metadataURI = "") := by
  have hup : upload_to_ipfs env m = "" := by
    unfold upload_to_ipfs
    rw [hfail]
  refine ⟨hup, ?_, ?_⟩
  · unfold list_property build_and_send_tx
    rw [hl, hp, hmn, hmx, hdp, hkey]
    simp [ListResult.success]
  · refine ⟨Tx.mk (ListPropertyArgs.mk l (p * 10 ^ 18) mn mx dp ("")) owner env.nonce
      2000000 env.gasPrice, ?_, rfl⟩
    unfold list_property build_and_send_tx
    rw [hl, hp, hmn, hmx, hdp, hmeta, hkey]
    simp [hup]

/-- Write environment whose IPFS uploads always fail. -/
def wFailEnv : WriteEnv :=
  { adminAccount := some { address := "0xAdmin", key := "adminkey" }
    ipfsAdd := fun _ => none
    nonce := 5
    gasPrice := 1000000000
    txHash := "0xfeed"
    receipt := { blockNumber := 12, logs := [{ raw := "log0" }] }
    decodeListed := fun _ => none }

/-- Witness for C9: a concrete call with a failing upload still succeeds and submits a
transaction whose metadata URI is empty. -/
theorem listProperty_upload_failure_still_submits_witness :
    upload_to_ipfs wFailEnv (Json.doc ("metadata")) = "" ∧
    ((list_property wFailEnv ("0xAdmin") wInput (some "k")).1).success = true ∧
    (∃ tx : Tx, Event.submitTx tx ∈ (list_property wFailEnv ("0xAdmin") wInput (some "k")).2 ∧
      tx.args.metadataURI = "") :=
  listProperty_upload_failure_still_submits wFailEnv ("0xAdmin") wInput (some "k")
    (Json.doc ("metadata")) "Taipei" 1 1 12 2 rfl rfl rfl rfl rfl rfl rfl (by decide)

/-- Persistent user row of the users table. -/
structure UserRow where
  id : String
  username : String
  email : String
  hashed_password : String
  wallet_address : Option String
  is_active : Bool
  is_landlord : Bool
deriving DecidableEq

/-- Operations a request performs on its SQLAlchemy session (autocommit and autoflush
disabled): an attribute write on a loaded user object, an explicit commit, or the
close issued by get_db's finally block. -/
inductive SessionOp where
  | setLandlord : String → Bool → SessionOp
  | commit : SessionOp
  | close : SessionOp
deriving DecidableEq

/-- Session state: the persisted store plus the pending in-memory attribute writes. -/
structure SessionState where
  persisted : String → Option UserRow
  pending : List (String × Bool)

/-- Apply one pending is_landlord write to the persisted store. -/
def applyLandlord (uid : String) (v : Bool) (db : String → Option UserRow) :
    String → Option UserRow :=
  fun i => if i = uid then (db i).map (fun u => { u with is_landlord := v }) else db i

/-- Session semantics: attribute writes stay pending; commit flushes them into the
persisted store; close without commit discards them (rollback). -/
def sessionStep (s : SessionState) : SessionOp → SessionState
  | SessionOp.setLandlord uid v => { s with pending := s.pending ++ [(uid, v)] }
  | SessionOp.commit =>
    { persisted := s.pending.foldl (fun db e => applyLandlord e.1 e.2 db) s.persisted
      pending := [] }
  | SessionOp.close => { s with pending := [] }

/-- Persistent store left after a request-scoped session runs the given operations. -/
def runSession (ops : List SessionOp) (db : String → Option UserRow) :
    String → Option UserRow :=
  (ops.foldl sessionStep { persisted := db, pending := [] }).persisted

/-- Session operations of a POST /properties/ request for authenticated user uid: the
handler sets is_landlord = True on the session-loaded user object and never calls
commit on the session; get_db closes the session when the request ends. -/
def create_property_session_ops (uid : String) : List SessionOp :=
  [SessionOp.setLandlord uid true, SessionOp.close]

/-- C10: a POST /properties/ request leaves the persistent user store - is_landlord and
every other stored field of every user - unchanged: the flag is set only on the
in-memory object and the session is closed without commit, discarding the write. -/
theorem createProperty_leaves_user_row_unchanged (uid : String)
    (db : String → Option UserRow) :
    runSession (create_property_session_ops uid) db = db := rfl

end Debook
